import Mathlib

/-!
# anza-snapshot-proxy: the request classification and forwarding pipeline

A shallow embedding of `main.go`: the method policy (`isMethodAllowed`), the
buffered forwarder (`forwardToSnapshotProxy`), the streaming forwarder
(`handleFileDownload`) and the dispatching handler (`logRequestAndForward`).

Conventions of the embedding

* A Go `string` and a Go `[]byte` are both byte sequences: `GoString`.
  `string(body)` is the identity, `==` is equality of byte sequences.
* The standard library is not part of the program.  What the handler needs of
  it is a field of `Env`: the JSON decoder, the URL parser called by
  `http.NewRequest`, and the HTTP client (the upstream).
* A handler run yields an `Outcome`: what was handed to the
  `http.ResponseWriter`, and the chronological list of observable effects
  (`log.Printf` lines and `client.Do` calls).
-/

set_option autoImplicit false

namespace SnapshotProxy

/-! ## Byte strings -/

/-- Go strings and byte slices. -/
abbrev GoString := List UInt8

/-- The bytes of a string literal of the source (UTF-8, as Go stores it). -/
def str (s : String) : GoString := s.data.flatMap String.utf8EncodeChar

/-- Go `strings.HasPrefix(s, p)`. -/
def HasPrefix (s p : GoString) : Bool := p.isPrefixOf s

/-! ## Data model -/

/-- A Go `interface{}` filled by the JSON decoder; never inspected by the program. -/
inductive JSONValue where
  | null
  | bool (b : Bool)
  | number (literal : GoString)
  | string (s : GoString)
  | array (items : List JSONValue)
  | object (fields : List (GoString × JSONValue))

/-- JSON-RPC request structure. -/
structure JSONRPCRequest where
  JSONRPC : GoString
  ID : JSONValue
  Method : GoString
  Params : JSONValue

/-- Configuration structure for whitelist and blacklist. -/
structure Config where
  WhitelistedMethods : List GoString
  BlacklistedMethods : List GoString
deriving DecidableEq

/-- Go `http.Header`, a map from (canonical) header names to value lists, as an
association list read from the front. -/
structure Header where
  entries : List (GoString × List GoString)
deriving DecidableEq

/-- Go `Header.Get`: the first value stored under the key, or the empty string.
The keys used by the program are literals already in canonical form. -/
def Header.Get (h : Header) (key : GoString) : GoString :=
  match h.entries.lookup key with
  | some (v :: _) => v
  | _ => []

/-- Go `Header.Set`: the key now maps to the single value. -/
def Header.Set (h : Header) (key value : GoString) : Header :=
  ⟨(key, [value]) :: h.entries.filter (fun kv => kv.1 != key)⟩

/-- Go `Header.Clone`: a copy with the same content. -/
def Header.Clone (h : Header) : Header := ⟨h.entries⟩

/-- A body reader: the bytes it delivers, and the error (if any) it reports
after delivering them.  `err = none` is a clean end of stream. -/
structure BodyStream where
  data : GoString
  err : Option GoString
deriving DecidableEq

/-- Go `ioutil.ReadAll`: the bytes read so far, and the error that stopped the read. -/
def ReadAll (b : BodyStream) : GoString × Option GoString := (b.data, b.err)

/-- Go `url.URL`, the two fields the program reads. -/
structure URL where
  Path : GoString
  RawQuery : GoString
deriving DecidableEq

/-- The inbound `*http.Request`. -/
structure Request where
  Method : GoString
  URL : URL
  Header : Header
  Body : BodyStream
  RemoteAddr : GoString
deriving DecidableEq

/-- An outbound `*http.Request` as built by `http.NewRequest(method, url, body)`
and then given its header: `Body = none` is the `nil` body argument. -/
structure OutRequest where
  Method : GoString
  URL : GoString
  Header : Header
  Body : Option GoString
deriving DecidableEq

/-- The upstream's `*http.Response`. -/
structure UpstreamResponse where
  StatusCode : Nat
  Header : Header
  Body : BodyStream
deriving DecidableEq

/-- What a handler hands to the `http.ResponseWriter`. -/
inductive Response where
  /-- `http.Error(w, msg, code)`: a plain-text reply with status `code` whose text is
  `msg` (the line end and the headers the library adds are not part of the program) -/
  | Error (msg : GoString) (code : Nat)
  /-- `w.Header().Set(..)`, `w.WriteHeader(status)`, then the body bytes written -/
  | Written (header : Header) (status : Nat) (body : GoString)
deriving DecidableEq

/-- The status code of a response. -/
def Response.status : Response → Nat
  | .Error _ code => code
  | .Written _ status _ => status

/-- The text or bytes the client receives as the body of a response. -/
def Response.body : Response → GoString
  | .Error msg _ => msg
  | .Written _ _ body => body

/-- The headers the handler itself set on a response. -/
def Response.header : Response → Header
  | .Error _ _ => ⟨[]⟩
  | .Written header _ _ => header

/-- An argument of a `log.Printf` call. -/
inductive LogArg where
  | s (v : GoString)
  | d (n : Nat)
deriving DecidableEq

/-- An observable effect of a handler run. -/
inductive Event where
  /-- `log.Printf(format, args...)` -/
  | logPrintf (format : String) (args : List LogArg)
  /-- `client.Do(req)`: one call to the upstream -/
  | clientDo (req : OutRequest)
deriving DecidableEq

/-- The result of running a handler on one request. -/
structure Outcome where
  response : Response
  trace : List Event
deriving DecidableEq

/-- The upstream calls of a trace, in order. -/
def calls : List Event → List OutRequest
  | [] => []
  | .clientDo req :: rest => req :: calls rest
  | .logPrintf _ _ :: rest => calls rest

/-- The standard-library and network environment of one request. -/
structure Env where
  /-- `json.Unmarshal(body, &rpcRequest)`: `some v` when `err == nil` -/
  Unmarshal : GoString → Option JSONRPCRequest
  /-- `url.Parse` as called by `http.NewRequest`: the error, if the URL is refused -/
  ParseURL : GoString → Except GoString Unit
  /-- `client.Do(req)`: the upstream's answer, or the transport error -/
  Do : OutRequest → Except GoString UpstreamResponse

/-! ## Constants -/

def MethodGet : GoString := str "GET"
def MethodPost : GoString := str "POST"
def StatusOK : Nat := 200
def StatusForbidden : Nat := 403
def StatusInternalServerError : Nat := 500

/-- Go `http.NewRequest(method, url, body)`.  The program passes only the methods
`GET` and `POST`, which the library accepts; the URL may be refused. -/
def NewRequest (env : Env) (method url : GoString) (body : Option GoString) :
    Except GoString OutRequest :=
  match env.ParseURL url with
  | .error e => .error e
  | .ok _ => .ok { Method := method, URL := url, Header := ⟨[]⟩, Body := body }

/-! ## The program -/

/-- The loop `for _, blocked := range config.BlacklistedMethods` of
`isMethodAllowed`: true when it reaches an element equal to `method`. -/
def blacklistLoop (method : GoString) : List GoString → Bool
  | [] => false
  | blocked :: rest => if method = blocked then true else blacklistLoop method rest

/-- The loop `for _, allowed := range config.WhitelistedMethods` of
`isMethodAllowed`: true when it reaches an element equal to `method`. -/
def whitelistLoop (method : GoString) : List GoString → Bool
  | [] => false
  | allowed :: rest => if method = allowed then true else whitelistLoop method rest

/-- Go `isMethodAllowed`: the verdict, and the lines it logs. -/
def isMethodAllowed (method : GoString) (config : Config) : Bool × List Event :=
  if blacklistLoop method config.BlacklistedMethods then
    (false, [.logPrintf "Blocked method: %s" [.s method]])
  else if whitelistLoop method config.WhitelistedMethods then
    (true, [])
  else
    (false, [.logPrintf "Method not whitelisted or blacklisted: %s" [.s method]])

/-- Go `forwardToSnapshotProxy`: the upstream's response or an error, and the
upstream call it made. -/
def forwardToSnapshotProxy (env : Env) (r : Request) (body : GoString) :
    Except GoString UpstreamResponse × List Event :=
  let snapshotProxyURL := str "http://localhost:8899"
  let built : Option (Except GoString OutRequest) :=
    if r.Method = MethodPost then
      some (NewRequest env r.Method snapshotProxyURL (some body))
    else if r.Method = MethodGet then
      some (NewRequest env r.Method (snapshotProxyURL ++ str "?" ++ r.URL.RawQuery) none)
    else
      none
  match built with
  | none => (.error (str "unsupported HTTP method: " ++ r.Method), [])
  | some (.error err) => (.error (str "failed to create forward request: " ++ err), [])
  | some (.ok req) =>
    let req := { req with Header := r.Header }
    (env.Do req, [.clientDo req])

/-- Go `handleFileDownload`. -/
def handleFileDownload (env : Env) (r : Request) : Outcome :=
  let snapshotProxyURL := str "http://localhost:8899"
  let snapshot : Bool :=
    HasPrefix r.URL.Path (str "/snapshot-") || HasPrefix r.URL.Path (str "/incremental-snapshot")
  let built : Except GoString OutRequest × List Event :=
    if snapshot then
      (NewRequest env MethodPost (snapshotProxyURL ++ r.URL.Path) none,
        [.logPrintf "Forwarding snapshot download as POST: %s" [.s r.URL.Path]])
    else
      (NewRequest env MethodGet (snapshotProxyURL ++ r.URL.Path) none, [])
  match built.1 with
  | .error _ =>
    ⟨.Error (str "Failed to create file download request") StatusInternalServerError, built.2⟩
  | .ok req =>
    let cloned : Header := r.Header.Clone
    let header : Header :=
      if snapshot then
        (cloned.Set (str "Content-Type") (str "application/octet-stream")).Set
          (str "Content-Length") (str "0")
      else cloned
    let req : OutRequest := { req with Header := header }
    match env.Do req with
    | .error err =>
      ⟨.Error (str "Failed to download file") StatusInternalServerError,
        built.2 ++ [.clientDo req, .logPrintf "Failed to download file: %v" [.s err]]⟩
    | .ok resp =>
      if resp.StatusCode ≠ StatusOK then
        let body := (ReadAll resp.Body).1
        ⟨.Error (str "Proxy error: " ++ body) resp.StatusCode,
          built.2 ++ [.clientDo req,
            .logPrintf "Proxy responded with error: %d - %s" [.d resp.StatusCode, .s body]]⟩
      else
        let header :=
          (((Header.mk []).Set (str "Content-Type") (resp.Header.Get (str "Content-Type"))).Set
            (str "Content-Disposition") (str "attachment; filename=" ++ r.URL.Path)).Set
            (str "Content-Length") (resp.Header.Get (str "Content-Length"))
        -- io.Copy(w, resp.Body): every byte the upstream delivers is written
        let copied := resp.Body.data
        let copyLog : List Event :=
          match resp.Body.err with
          | some err => [.logPrintf "Error streaming response: %v" [.s err]]
          | none => []
        ⟨.Written header resp.StatusCode copied, built.2 ++ [.clientDo req] ++ copyLog⟩

/-- Go `logRequestAndForward`. -/
def logRequestAndForward (env : Env) (r : Request) (config : Config) : Outcome :=
  if r.URL.Path = str "/genesis.tar.bz2" ∨ HasPrefix r.URL.Path (str "/snapshot-") = true
      ∨ HasPrefix r.URL.Path (str "/incremental-snapshot") = true then
    let out := handleFileDownload env r
    ⟨out.response,
      .logPrintf "Received file download request: %s" [.s r.URL.Path] :: out.trace⟩
  else
    match ReadAll r.Body with
    | (_, some _) => ⟨.Error (str "Unable to read request body") StatusInternalServerError, []⟩
    | (body, none) =>
      let t1 : List Event := [.logPrintf "Received raw request body: %s" [.s body]]
      let check : Bool × List Event :=
        match env.Unmarshal body with
        | some rpcRequest =>
          let verdict := isMethodAllowed rpcRequest.Method config
          (verdict.1, .logPrintf "Requester IP: %s" [.s r.RemoteAddr] :: verdict.2)
        | none => (true, [])
      if check.1 = false then
        ⟨.Error (str "Method not allowed") StatusForbidden, t1 ++ check.2⟩
      else
        let fwd := forwardToSnapshotProxy env r body
        match fwd.1 with
        | .error err =>
          ⟨.Error (str "Failed to forward request: " ++ err) StatusInternalServerError,
            t1 ++ check.2 ++ fwd.2⟩
        | .ok resp =>
          match ReadAll resp.Body with
          | (_, some _) =>
            ⟨.Error (str "Failed to read proxy response") StatusInternalServerError,
              t1 ++ check.2 ++ fwd.2⟩
          | (respBody, none) =>
            ⟨.Written ((Header.mk []).Set (str "Content-Type") (str "application/json"))
                resp.StatusCode respBody,
              t1 ++ check.2 ++ fwd.2
                ++ [.logPrintf "Received raw response body: %s" [.s respBody]]⟩

/-! ## Concrete scenarios -/

/-- The request body of scenario A. -/
def bodyGetHealth : GoString :=
  str "\x7b\"jsonrpc\":\"2.0\",\"id\":1,\"method\":\"getHealth\",\"params\":[]\x7d"

/-- The request body of scenario B. -/
def bodyGetSlot : GoString :=
  str "\x7b\"jsonrpc\":\"2.0\",\"id\":1,\"method\":\"getSlot\",\"params\":[]\x7d"

/-- A decoder for the scenarios: it decodes the two scenario bodies and refuses
every other input. -/
def scenarioUnmarshal (body : GoString) : Option JSONRPCRequest :=
  if body = bodyGetHealth then
    some ⟨str "2.0", .number (str "1"), str "getHealth", .array []⟩
  else if body = bodyGetSlot then
    some ⟨str "2.0", .number (str "1"), str "getSlot", .array []⟩
  else
    none

/-- The config of scenarios A and B. -/
def scenarioConfig : Config := ⟨[str "getHealth"], []⟩

/-- A config that blacklists `getSlot`. -/
def strictConfig : Config := ⟨[str "getHealth"], [str "getSlot"]⟩

/-- An environment whose upstream gives the same answer to every call. -/
def scenarioEnv (answer : Except GoString UpstreamResponse) : Env :=
  ⟨scenarioUnmarshal, fun _ => .ok (), fun _ => answer⟩

/-- An inbound request with no headers and no query string. -/
def scenarioRequest (method path body : GoString) : Request :=
  ⟨method, ⟨path, []⟩, ⟨[]⟩, ⟨body, none⟩, str "127.0.0.1:4000"⟩

/-! ## The method policy -/

theorem blacklistLoop_iff (m : GoString) (l : List GoString) :
    blacklistLoop m l = true ↔ m ∈ l := by
  induction l with
  | nil => simp [blacklistLoop]
  | cons b rest ih =>
    by_cases hb : m = b
    · simp [blacklistLoop, hb]
    · simp [blacklistLoop, hb, ih]

theorem whitelistLoop_iff (m : GoString) (l : List GoString) :
    whitelistLoop m l = true ↔ m ∈ l := by
  induction l with
  | nil => simp [whitelistLoop]
  | cons b rest ih =>
    by_cases hb : m = b
    · simp [whitelistLoop, hb]
    · simp [whitelistLoop, hb, ih]

/-- C1: a method equal to some element of `config.BlacklistedMethods` is rejected by
`isMethodAllowed`, whatever `config.WhitelistedMethods` holds: the blacklist
takes precedence over the whitelist. -/
theorem isMethodAllowed_blacklisted (config : Config) (m : GoString)
    (h : m ∈ config.BlacklistedMethods) :
    (isMethodAllowed m config).1 = false := by
  have hb : blacklistLoop m config.BlacklistedMethods = true := (blacklistLoop_iff m _).2 h
  simp [isMethodAllowed, hb]

theorem isMethodAllowed_blacklisted_witness :
    str "getSlot" ∈ (Config.mk [str "getSlot"] [str "getHealth", str "getSlot"]).BlacklistedMethods
      ∧ str "getSlot" ∈ (Config.mk [str "getSlot"] [str "getHealth", str "getSlot"]).WhitelistedMethods
      ∧ (isMethodAllowed (str "getSlot")
          (Config.mk [str "getSlot"] [str "getHealth", str "getSlot"])).1 = false :=
  ⟨by decide, by decide, isMethodAllowed_blacklisted _ _ (by decide)⟩

/-- C2: for a method that is not an element of `config.BlacklistedMethods`,
`isMethodAllowed` answers true exactly when the method is equal, byte for byte,
to some element of `config.WhitelistedMethods`; a method in neither list is
rejected, also when both lists are empty. -/
theorem isMethodAllowed_not_blacklisted (config : Config) (m : GoString)
    (h : m ∉ config.BlacklistedMethods) :
    ((isMethodAllowed m config).1 = true ↔ m ∈ config.WhitelistedMethods)
      ∧ (m ∉ config.WhitelistedMethods → (isMethodAllowed m config).1 = false)
      ∧ (isMethodAllowed m (Config.mk [] [])).1 = false := by
  have hb : blacklistLoop m config.BlacklistedMethods = false := by
    cases hc : blacklistLoop m config.BlacklistedMethods with
    | false => rfl
    | true => exact absurd ((blacklistLoop_iff m _).1 hc) h
  refine ⟨?_, ?_, ?_⟩
  · by_cases hw : whitelistLoop m config.WhitelistedMethods = true
    · simp [isMethodAllowed, hb, hw, (whitelistLoop_iff m _).1 hw]
    · have hn : m ∉ config.WhitelistedMethods := fun hm => hw ((whitelistLoop_iff m _).2 hm)
      simp [isMethodAllowed, hb, hw, hn]
  · intro hn
    have hw : whitelistLoop m config.WhitelistedMethods = false := by
      cases hc : whitelistLoop m config.WhitelistedMethods with
      | false => rfl
      | true => exact absurd ((whitelistLoop_iff m _).1 hc) hn
    simp [isMethodAllowed, hb, hw]
  · simp [isMethodAllowed, blacklistLoop, whitelistLoop]

theorem isMethodAllowed_not_blacklisted_witness :
    ((isMethodAllowed (str "getHealth") (Config.mk [str "getHealth"] [str "getSlot"])).1 = true
        ↔ str "getHealth" ∈ (Config.mk [str "getHealth"] [str "getSlot"]).WhitelistedMethods)
      ∧ (isMethodAllowed (str "gethealth") (Config.mk [str "getHealth"] [str "getSlot"])).1 = false
      ∧ (isMethodAllowed (str "get") (Config.mk [str "getHealth"] [str "getSlot"])).1 = false
      ∧ (isMethodAllowed (str "getHealth") (Config.mk [] [])).1 = false :=
  ⟨(isMethodAllowed_not_blacklisted (Config.mk [str "getHealth"] [str "getSlot"])
      (str "getHealth") (by decide)).1,
    (isMethodAllowed_not_blacklisted (Config.mk [str "getHealth"] [str "getSlot"])
      (str "gethealth") (by decide)).2.1 (by decide),
    (isMethodAllowed_not_blacklisted (Config.mk [str "getHealth"] [str "getSlot"])
      (str "get") (by decide)).2.1 (by decide),
    (isMethodAllowed_not_blacklisted (Config.mk [str "getHealth"] [str "getSlot"])
      (str "getHealth") (by decide)).2.2⟩

/-! ## Classification by path -/

theorem logRequestAndForward_download (env : Env) (r : Request) (config : Config)
    (h : r.URL.Path = str "/genesis.tar.bz2" ∨ HasPrefix r.URL.Path (str "/snapshot-") = true
      ∨ HasPrefix r.URL.Path (str "/incremental-snapshot") = true) :
    logRequestAndForward env r config =
      ⟨(handleFileDownload env r).response,
        .logPrintf "Received file download request: %s" [.s r.URL.Path]
          :: (handleFileDownload env r).trace⟩ := by
  unfold logRequestAndForward
  rw [if_pos h]

theorem proxy_error_ne_policy_text (b : GoString) :
    str "Proxy error: " ++ b ≠ str "Method not allowed" := by
  intro h
  have h0 : (str "Proxy error: " ++ b).head? = (str "Method not allowed").head? := by rw [h]
  have h1 : str "Proxy error: " = 80 :: str "roxy error: " := by decide
  have h2 : str "Method not allowed" = 77 :: str "ethod not allowed" := by decide
  rw [h1, h2] at h0
  simp at h0

theorem handleFileDownload_not_policy_rejection (env : Env) (r : Request) :
    (handleFileDownload env r).response ≠ .Error (str "Method not allowed") StatusForbidden := by
  unfold handleFileDownload
  simp only []
  split
  · simp [StatusInternalServerError, StatusForbidden]
  · split
    · simp [StatusInternalServerError, StatusForbidden]
    · split
      · intro h
        injection h with hmsg _
        exact proxy_error_ne_policy_text _ hmsg
      · simp

theorem forwardToSnapshotProxy_no_log (env : Env) (r : Request) (body : GoString)
    (f : String) (args : List LogArg) :
    Event.logPrintf f args ∉ (forwardToSnapshotProxy env r body).2 := by
  unfold forwardToSnapshotProxy
  simp only []
  split <;> simp

theorem isMethodAllowed_no_marker (m : GoString) (config : Config) (args : List LogArg) :
    Event.logPrintf "Received file download request: %s" args ∉ (isMethodAllowed m config).2 := by
  unfold isMethodAllowed
  split
  · simp
  · split <;> simp

theorem logRequestAndForward_no_marker (env : Env) (r : Request) (config : Config)
    (h : ¬ (r.URL.Path = str "/genesis.tar.bz2" ∨ HasPrefix r.URL.Path (str "/snapshot-") = true
      ∨ HasPrefix r.URL.Path (str "/incremental-snapshot") = true)) (args : List LogArg) :
    Event.logPrintf "Received file download request: %s" args
      ∉ (logRequestAndForward env r config).trace := by
  unfold logRequestAndForward
  rw [if_neg h]
  have hf := forwardToSnapshotProxy_no_log env r
  have hm := fun m => isMethodAllowed_no_marker m config args
  split
  · simp
  · simp only []
    split
    · cases hu : env.Unmarshal _ <;> simp [hm]
    · split
      · cases hu : env.Unmarshal _ <;> simp [hm, hf]
      · split
        · cases hu : env.Unmarshal _ <;> simp [hm, hf]
        · cases hu : env.Unmarshal _ <;> simp [hm, hf]

/-- C3: a request whose path is `/genesis.tar.bz2` or starts with `/snapshot-` or with
`/incremental-snapshot` is handled by `handleFileDownload`, for every body, inbound
method, decoder and config: the outcome does not depend on any of them, so the body
is neither read nor parsed and the policy is not consulted, and the response is never
the 403 policy rejection.  A request whose path meets none of the three conditions
(such as `/genesis.tar.bz2x` or `/snapshot`) never enters that branch: its trace has
no `Received file download request` line. -/
theorem download_path_classification :
    (∀ (env : Env) (r : Request) (config : Config),
      (r.URL.Path = str "/genesis.tar.bz2" ∨ HasPrefix r.URL.Path (str "/snapshot-") = true
        ∨ HasPrefix r.URL.Path (str "/incremental-snapshot") = true) →
      logRequestAndForward env r config =
          ⟨(handleFileDownload env r).response,
            .logPrintf "Received file download request: %s" [.s r.URL.Path]
              :: (handleFileDownload env r).trace⟩
        ∧ (∀ (unmarshal : GoString → Option JSONRPCRequest) (method : GoString)
            (body : BodyStream) (remote : GoString) (config2 : Config),
            logRequestAndForward { env with Unmarshal := unmarshal }
                { r with Method := method, Body := body, RemoteAddr := remote } config2
              = logRequestAndForward env r config)
        ∧ (logRequestAndForward env r config).response
            ≠ .Error (str "Method not allowed") StatusForbidden)
    ∧ (∀ (env : Env) (r : Request) (config : Config),
      ¬ (r.URL.Path = str "/genesis.tar.bz2" ∨ HasPrefix r.URL.Path (str "/snapshot-") = true
        ∨ HasPrefix r.URL.Path (str "/incremental-snapshot") = true) →
      ∀ args : List LogArg, Event.logPrintf "Received file download request: %s" args
        ∉ (logRequestAndForward env r config).trace)
    ∧ (∀ p : GoString, p = str "/genesis.tar.bz2x" ∨ p = str "/snapshot" →
      ¬ (p = str "/genesis.tar.bz2" ∨ HasPrefix p (str "/snapshot-") = true
        ∨ HasPrefix p (str "/incremental-snapshot") = true)) := by
  refine ⟨?_, ?_, ?_⟩
  · intro env r config h
    refine ⟨logRequestAndForward_download env r config h, ?_, ?_⟩
    · intro unmarshal method body remote config2
      rw [logRequestAndForward_download env r config h,
        logRequestAndForward_download { env with Unmarshal := unmarshal }
          { r with Method := method, Body := body, RemoteAddr := remote } config2 h]
      rfl
    · rw [logRequestAndForward_download env r config h]
      exact handleFileDownload_not_policy_rejection env r
  · intro env r config h args
    exact logRequestAndForward_no_marker env r config h args
  · intro p hp
    rcases hp with hp | hp <;> subst hp <;> decide

theorem download_path_classification_witness :
    (logRequestAndForward (scenarioEnv (.ok ⟨200, ⟨[]⟩, ⟨[1, 2, 3], none⟩⟩))
        (scenarioRequest MethodPost (str "/snapshot-123") bodyGetSlot) strictConfig).response
        ≠ .Error (str "Method not allowed") StatusForbidden
      ∧ Event.logPrintf "Received file download request: %s" [.s (str "/snapshot")]
        ∉ (logRequestAndForward (scenarioEnv (.ok ⟨200, ⟨[]⟩, ⟨[1, 2, 3], none⟩⟩))
            (scenarioRequest MethodGet (str "/snapshot") []) strictConfig).trace
      ∧ ¬ (str "/genesis.tar.bz2x" = str "/genesis.tar.bz2"
        ∨ HasPrefix (str "/genesis.tar.bz2x") (str "/snapshot-") = true
        ∨ HasPrefix (str "/genesis.tar.bz2x") (str "/incremental-snapshot") = true) :=
  ⟨(download_path_classification.1 _ _ _ (by decide)).2.2,
    download_path_classification.2.1 _ _ _ (by decide) _,
    download_path_classification.2.2 _ (Or.inl rfl)⟩

/-! ## The buffered path -/

theorem calls_append (a b : List Event) : calls (a ++ b) = calls a ++ calls b := by
  induction a with
  | nil => rfl
  | cons e rest ih =>
    cases e with
    | logPrintf f args => simpa [calls] using ih
    | clientDo req => simpa [calls] using ih

theorem calls_isMethodAllowed (m : GoString) (config : Config) :
    calls (isMethodAllowed m config).2 = [] := by
  unfold isMethodAllowed
  split
  · rfl
  · split <;> rfl

theorem isMethodAllowed_true_silent (m : GoString) (config : Config)
    (h : (isMethodAllowed m config).1 = true) : (isMethodAllowed m config).2 = [] := by
  unfold isMethodAllowed at h ⊢
  split
  · rename_i hb
    simp [hb] at h
  · split
    · rfl
    · rename_i hb hw
      simp [hb, hw] at h

/-- The outcome of `logRequestAndForward` on a path that is not a download path, when
the body decodes to an envelope whose method the policy refuses. -/
theorem logRequestAndForward_rejected (env : Env) (r : Request) (config : Config)
    (e : JSONRPCRequest)
    (h : ¬ (r.URL.Path = str "/genesis.tar.bz2" ∨ HasPrefix r.URL.Path (str "/snapshot-") = true
      ∨ HasPrefix r.URL.Path (str "/incremental-snapshot") = true))
    (hread : r.Body.err = none)
    (hu : env.Unmarshal r.Body.data = some e)
    (hm : (isMethodAllowed e.Method config).1 = false) :
    logRequestAndForward env r config =
      ⟨.Error (str "Method not allowed") StatusForbidden,
        [.logPrintf "Received raw request body: %s" [.s r.Body.data]]
          ++ (.logPrintf "Requester IP: %s" [.s r.RemoteAddr]
            :: (isMethodAllowed e.Method config).2)⟩ := by
  unfold logRequestAndForward
  rw [if_neg h]
  simp [ReadAll, hread, hu, hm]

/-- C4: on a path that is not a download path, when the body decodes to an envelope
whose method `isMethodAllowed` refuses, `logRequestAndForward` answers
`http.Error(w, "Method not allowed", 403)` and makes no upstream call, for every
inbound HTTP method and every upstream (the outcome is the same whatever the
upstream would answer). -/
theorem policy_rejection_short_circuits (env : Env) (r : Request) (config : Config)
    (e : JSONRPCRequest) (m : GoString)
    (h : ¬ (r.URL.Path = str "/genesis.tar.bz2" ∨ HasPrefix r.URL.Path (str "/snapshot-") = true
      ∨ HasPrefix r.URL.Path (str "/incremental-snapshot") = true))
    (hread : r.Body.err = none)
    (hu : env.Unmarshal r.Body.data = some e) (hname : e.Method = m)
    (hm : (isMethodAllowed m config).1 = false) :
    (logRequestAndForward env r config).response
        = .Error (str "Method not allowed") StatusForbidden
      ∧ (logRequestAndForward env r config).response.status = 403
      ∧ (logRequestAndForward env r config).response.body = str "Method not allowed"
      ∧ calls (logRequestAndForward env r config).trace = []
      ∧ (∀ upstream : OutRequest → Except GoString UpstreamResponse,
          logRequestAndForward { env with Do := upstream } r config
            = logRequestAndForward env r config) := by
  subst hname
  have k1 := logRequestAndForward_rejected env r config e h hread hu hm
  refine ⟨by rw [k1], by rw [k1]; rfl, by rw [k1]; rfl, ?_, ?_⟩
  · rw [k1]
    simp [calls, calls_isMethodAllowed]
  · intro upstream
    rw [k1, logRequestAndForward_rejected { env with Do := upstream } r config e h hread hu hm]

theorem policy_rejection_short_circuits_witness :
    (logRequestAndForward (scenarioEnv (.ok ⟨200, ⟨[]⟩, ⟨str "ok", none⟩⟩))
        (scenarioRequest MethodPost (str "/") bodyGetSlot) scenarioConfig).response
        = .Error (str "Method not allowed") StatusForbidden
      ∧ calls (logRequestAndForward (scenarioEnv (.ok ⟨200, ⟨[]⟩, ⟨str "ok", none⟩⟩))
        (scenarioRequest MethodPost (str "/") bodyGetSlot) scenarioConfig).trace = [] :=
  have w := policy_rejection_short_circuits (scenarioEnv (.ok ⟨200, ⟨[]⟩, ⟨str "ok", none⟩⟩))
    (scenarioRequest MethodPost (str "/") bodyGetSlot) scenarioConfig
    ⟨str "2.0", .number (str "1"), str "getSlot", .array []⟩ (str "getSlot")
    (by decide) rfl rfl rfl (by decide)
  ⟨w.1, w.2.2.2.1⟩

/-! ## The streaming path -/

theorem Header.Get_Set_same (h : Header) (key value : GoString) :
    (h.Set key value).Get key = value := by
  simp [Header.Get, Header.Set, List.lookup]

theorem lookup_filter_other (l : List (GoString × List GoString)) (key other : GoString)
    (hne : other ≠ key) :
    (l.filter (fun kv => kv.1 != key)).lookup other = l.lookup other := by
  induction l with
  | nil => rfl
  | cons kv rest ih =>
    obtain ⟨k, v⟩ := kv
    by_cases hk : k = key
    · subst hk
      have h1 : (other == k) = false := by simpa using hne
      simp [List.filter, List.lookup, h1, ih]
    · have h2 : (k != key) = true := by simpa using hk
      by_cases ho : other = k
      · subst ho
        simp [List.filter, h2, List.lookup]
      · have h3 : (other == k) = false := by simpa using ho
        simp [List.filter, h2, List.lookup, h3, ih]

theorem Header.Get_Set_other (h : Header) (key value other : GoString) (hne : other ≠ key) :
    (h.Set key value).Get other = h.Get other := by
  have h1 : (other == key) = false := by simpa using hne
  simp [Header.Get, Header.Set, List.lookup, h1, lookup_filter_other _ _ _ hne]

/-- The upstream calls of `handleFileDownload`: none when the URL is refused, else
exactly the one request it built. -/
theorem handleFileDownload_calls (env : Env) (r : Request) :
    calls (handleFileDownload env r).trace =
      match env.ParseURL (str "http://localhost:8899" ++ r.URL.Path) with
      | .error _ => []
      | .ok _ =>
        [{ Method :=
              if (HasPrefix r.URL.Path (str "/snapshot-")
                  || HasPrefix r.URL.Path (str "/incremental-snapshot")) = true
              then MethodPost else MethodGet,
            URL := str "http://localhost:8899" ++ r.URL.Path,
            Header :=
              if (HasPrefix r.URL.Path (str "/snapshot-")
                  || HasPrefix r.URL.Path (str "/incremental-snapshot")) = true
              then (r.Header.Clone.Set (str "Content-Type") (str "application/octet-stream")).Set
                (str "Content-Length") (str "0")
              else r.Header.Clone,
            Body := none }] := by
  unfold handleFileDownload NewRequest
  cases hs : (HasPrefix r.URL.Path (str "/snapshot-")
      || HasPrefix r.URL.Path (str "/incremental-snapshot")) <;>
    cases hp : env.ParseURL (str "http://localhost:8899" ++ r.URL.Path) <;>
    simp only [hs, hp, calls, Bool.false_eq_true, if_false, if_true] <;>
    (try split) <;> (try simp only [calls, calls_append, List.append_nil, List.nil_append]) <;>
    (try split) <;> (try simp only [calls, calls_append, List.append_nil, List.nil_append]) <;>
    (try split) <;> (try simp only [calls, calls_append, List.append_nil, List.nil_append])

/-- The response of `handleFileDownload` as a function of the upstream's answer to
the one request it sent. -/
theorem handleFileDownload_response (env : Env) (r : Request) (req : OutRequest)
    (hreq : req ∈ calls (handleFileDownload env r).trace) :
    calls (handleFileDownload env r).trace = [req]
      ∧ (handleFileDownload env r).response =
        match env.Do req with
        | .error _ => .Error (str "Failed to download file") StatusInternalServerError
        | .ok resp =>
          if resp.StatusCode ≠ StatusOK then
            .Error (str "Proxy error: " ++ resp.Body.data) resp.StatusCode
          else
            .Written
              ((((Header.mk []).Set (str "Content-Type")
                    (resp.Header.Get (str "Content-Type"))).Set
                  (str "Content-Disposition") (str "attachment; filename=" ++ r.URL.Path)).Set
                (str "Content-Length") (resp.Header.Get (str "Content-Length")))
              resp.StatusCode resp.Body.data := by
  have hc := handleFileDownload_calls env r
  rw [hc] at hreq ⊢
  cases hp : env.ParseURL (str "http://localhost:8899" ++ r.URL.Path) with
  | error e => simp [hp] at hreq
  | ok u =>
    simp only [hp, List.mem_singleton] at hreq ⊢
    subst hreq
    refine ⟨rfl, ?_⟩
    unfold handleFileDownload NewRequest
    cases hs : (HasPrefix r.URL.Path (str "/snapshot-")
        || HasPrefix r.URL.Path (str "/incremental-snapshot")) <;>
      simp only [hs, hp, Bool.false_eq_true, if_false, if_true, ReadAll] <;>
      split <;> simp_all <;>
      split <;> simp_all
/-- C5: for a request that `logRequestAndForward` classifies as a file download, every
outbound request goes to the upstream address followed by the inbound path, and its
shape is decided by the path alone: on a `/snapshot-` or `/incremental-snapshot` path
it is a POST without body whose `Content-Type` is `application/octet-stream` and whose
`Content-Length` is `0`; otherwise the path is exactly `/genesis.tar.bz2` and it is a
GET without body.  When the URL is accepted there is exactly one such request, and the
inbound method has no influence on it. -/
theorem download_outbound_request (env : Env) (r : Request) (config : Config)
    (h : r.URL.Path = str "/genesis.tar.bz2" ∨ HasPrefix r.URL.Path (str "/snapshot-") = true
      ∨ HasPrefix r.URL.Path (str "/incremental-snapshot") = true) :
    (∀ req ∈ calls (logRequestAndForward env r config).trace,
        req.URL = str "http://localhost:8899" ++ r.URL.Path
        ∧ ((HasPrefix r.URL.Path (str "/snapshot-") = true
              ∨ HasPrefix r.URL.Path (str "/incremental-snapshot") = true) →
            req.Method = MethodPost ∧ req.Body = none
            ∧ req.Header.Get (str "Content-Type") = str "application/octet-stream"
            ∧ req.Header.Get (str "Content-Length") = str "0")
        ∧ (¬ (HasPrefix r.URL.Path (str "/snapshot-") = true
              ∨ HasPrefix r.URL.Path (str "/incremental-snapshot") = true) →
            r.URL.Path = str "/genesis.tar.bz2" ∧ req.Method = MethodGet ∧ req.Body = none))
      ∧ (env.ParseURL (str "http://localhost:8899" ++ r.URL.Path) = .ok () →
          (calls (logRequestAndForward env r config).trace).length = 1)
      ∧ (∀ method : GoString,
          calls (logRequestAndForward env { r with Method := method } config).trace
            = calls (logRequestAndForward env r config).trace) := by
  have hc : ∀ r2 : Request, r2.URL = r.URL →
      calls (logRequestAndForward env r2 config).trace = calls (handleFileDownload env r2).trace := by
    intro r2 h2
    rw [logRequestAndForward_download env r2 config (by rw [h2]; exact h)]
    rfl
  refine ⟨?_, ?_, ?_⟩
  · intro req hreq
    rw [hc r rfl, handleFileDownload_calls] at hreq
    cases hp : env.ParseURL (str "http://localhost:8899" ++ r.URL.Path) with
    | error e => simp [hp] at hreq
    | ok u =>
      simp only [hp, List.mem_singleton] at hreq
      subst hreq
      refine ⟨rfl, ?_, ?_⟩
      · intro hs
        have hs2 : (HasPrefix r.URL.Path (str "/snapshot-")
            || HasPrefix r.URL.Path (str "/incremental-snapshot")) = true := by
          simpa using hs
        refine ⟨by simp [hs2], rfl, ?_, ?_⟩
        · simp only [hs2, if_true]
          rw [Header.Get_Set_other _ _ _ _ (by decide), Header.Get_Set_same]
        · simp only [hs2, if_true]
          rw [Header.Get_Set_same]
      · intro hs
        have hs2 : (HasPrefix r.URL.Path (str "/snapshot-")
            || HasPrefix r.URL.Path (str "/incremental-snapshot")) = false := by
          simpa using hs
        refine ⟨?_, by simp [hs2], rfl⟩
        rcases h with h | h | h
        · exact h
        · exact absurd (Or.inl h) hs
        · exact absurd (Or.inr h) hs
  · intro hp
    rw [hc r rfl, handleFileDownload_calls, hp]
    rfl
  · intro method
    rw [hc r rfl, hc { r with Method := method } rfl, handleFileDownload_calls,
      handleFileDownload_calls]

theorem download_outbound_request_witness :
    (∀ req ∈ calls (logRequestAndForward (scenarioEnv (.ok ⟨200, ⟨[]⟩, ⟨[1, 2, 3], none⟩⟩))
          (scenarioRequest MethodGet (str "/snapshot-100-abc.tar.zst") []) scenarioConfig).trace,
        req.Method = MethodPost ∧ req.Body = none
          ∧ req.Header.Get (str "Content-Type") = str "application/octet-stream"
          ∧ req.Header.Get (str "Content-Length") = str "0")
      ∧ (calls (logRequestAndForward (scenarioEnv (.ok ⟨200, ⟨[]⟩, ⟨[1, 2, 3], none⟩⟩))
          (scenarioRequest MethodGet (str "/snapshot-100-abc.tar.zst") []) scenarioConfig).trace).length
        = 1 :=
  have w := download_outbound_request (scenarioEnv (.ok ⟨200, ⟨[]⟩, ⟨[1, 2, 3], none⟩⟩))
    (scenarioRequest MethodGet (str "/snapshot-100-abc.tar.zst") []) scenarioConfig (by decide)
  ⟨fun req hreq => (w.1 req hreq).2.1 (by decide), w.2.1 rfl⟩

/-- C6, at a concrete input: the upstream answers 404 with body `not found`; the client
receives status 404, but the text it receives is `Proxy error: not found`, which is
not the upstream's body. -/
theorem download_error_body_is_prefixed :
    (handleFileDownload (scenarioEnv (.ok ⟨404, ⟨[]⟩, ⟨str "not found", none⟩⟩))
        (scenarioRequest MethodGet (str "/genesis.tar.bz2") [])).response
        = .Error (str "Proxy error: not found") 404
      ∧ (handleFileDownload (scenarioEnv (.ok ⟨404, ⟨[]⟩, ⟨str "not found", none⟩⟩))
        (scenarioRequest MethodGet (str "/genesis.tar.bz2") [])).response.body
        ≠ str "not found" := by
  decide

/-- C6, amended: when the upstream answers a file-download request with a status other
than 200, `handleFileDownload` relays `http.Error` with the upstream's status code and
the text `Proxy error: ` followed by the upstream's error body, and the upstream is
called exactly once. -/
theorem download_error_relay (env : Env) (r : Request) (req : OutRequest)
    (resp : UpstreamResponse)
    (hreq : req ∈ calls (handleFileDownload env r).trace)
    (hdo : env.Do req = .ok resp) (hstatus : resp.StatusCode ≠ StatusOK) :
    (handleFileDownload env r).response
        = .Error (str "Proxy error: " ++ resp.Body.data) resp.StatusCode
      ∧ (handleFileDownload env r).response.status = resp.StatusCode
      ∧ (handleFileDownload env r).response.body = str "Proxy error: " ++ resp.Body.data
      ∧ calls (handleFileDownload env r).trace = [req] := by
  obtain ⟨hone, hresp⟩ := handleFileDownload_response env r req hreq
  rw [hdo] at hresp
  simp only [hstatus, ne_eq, not_false_eq_true, if_true] at hresp
  rw [hresp]
  exact ⟨rfl, rfl, rfl, hone⟩

theorem download_error_relay_witness :
    (handleFileDownload (scenarioEnv (.ok ⟨404, ⟨[]⟩, ⟨str "not found", none⟩⟩))
        (scenarioRequest MethodGet (str "/genesis.tar.bz2") [])).response.status = 404
      ∧ (handleFileDownload (scenarioEnv (.ok ⟨404, ⟨[]⟩, ⟨str "not found", none⟩⟩))
        (scenarioRequest MethodGet (str "/genesis.tar.bz2") [])).response.body
        = str "Proxy error: " ++ str "not found" :=
  have w := download_error_relay (scenarioEnv (.ok ⟨404, ⟨[]⟩, ⟨str "not found", none⟩⟩))
    (scenarioRequest MethodGet (str "/genesis.tar.bz2") [])
    ⟨MethodGet, str "http://localhost:8899/genesis.tar.bz2", ⟨[]⟩, none⟩
    ⟨404, ⟨[]⟩, ⟨str "not found", none⟩⟩ (by decide) rfl (by decide)
  ⟨w.2.1, w.2.2.1⟩

/-- C7: when the upstream answers a file-download request with status 200,
`handleFileDownload` responds with status 200, with `Content-Type` and
`Content-Length` equal to the upstream's, with `Content-Disposition` equal to
`attachment; filename=` followed by the request path, and, when the copy does not
fail, with a body that is exactly the upstream's body. -/
theorem download_success_relay (env : Env) (r : Request) (req : OutRequest)
    (resp : UpstreamResponse)
    (hreq : req ∈ calls (handleFileDownload env r).trace)
    (hdo : env.Do req = .ok resp) (hstatus : resp.StatusCode = StatusOK) :
    (handleFileDownload env r).response.status = 200
      ∧ (handleFileDownload env r).response.header.Get (str "Content-Type")
          = resp.Header.Get (str "Content-Type")
      ∧ (handleFileDownload env r).response.header.Get (str "Content-Length")
          = resp.Header.Get (str "Content-Length")
      ∧ (handleFileDownload env r).response.header.Get (str "Content-Disposition")
          = str "attachment; filename=" ++ r.URL.Path
      ∧ (resp.Body.err = none → (handleFileDownload env r).response.body = resp.Body.data) := by
  obtain ⟨_, hresp⟩ := handleFileDownload_response env r req hreq
  rw [hdo] at hresp
  simp only [hstatus, ne_eq, not_true_eq_false, if_false] at hresp
  rw [hresp]
  refine ⟨rfl, ?_, ?_, ?_, fun _ => rfl⟩
  · simp only [Response.header]
    rw [Header.Get_Set_other _ _ _ _ (by decide), Header.Get_Set_other _ _ _ _ (by decide),
      Header.Get_Set_same]
  · simp only [Response.header]
    rw [Header.Get_Set_same]
  · simp only [Response.header]
    rw [Header.Get_Set_other _ _ _ _ (by decide), Header.Get_Set_same]

theorem download_success_relay_witness :
    (handleFileDownload
        (scenarioEnv (.ok ⟨200, ⟨[(str "Content-Length", [str "500"])]⟩,
          ⟨List.replicate 500 7, none⟩⟩))
        (scenarioRequest MethodGet (str "/genesis.tar.bz2") [])).response.status = 200
      ∧ (handleFileDownload
        (scenarioEnv (.ok ⟨200, ⟨[(str "Content-Length", [str "500"])]⟩,
          ⟨List.replicate 500 7, none⟩⟩))
        (scenarioRequest MethodGet (str "/genesis.tar.bz2") [])).response.header.Get
          (str "Content-Disposition") = str "attachment; filename=" ++ str "/genesis.tar.bz2"
      ∧ (handleFileDownload
        (scenarioEnv (.ok ⟨200, ⟨[(str "Content-Length", [str "500"])]⟩,
          ⟨List.replicate 500 7, none⟩⟩))
        (scenarioRequest MethodGet (str "/genesis.tar.bz2") [])).response.body
          = List.replicate 500 7 :=
  have w := download_success_relay
    (scenarioEnv (.ok ⟨200, ⟨[(str "Content-Length", [str "500"])]⟩,
      ⟨List.replicate 500 7, none⟩⟩))
    (scenarioRequest MethodGet (str "/genesis.tar.bz2") [])
    ⟨MethodGet, str "http://localhost:8899/genesis.tar.bz2", ⟨[]⟩, none⟩
    ⟨200, ⟨[(str "Content-Length", [str "500"])]⟩, ⟨List.replicate 500 7, none⟩⟩
    (by decide) rfl rfl
  ⟨w.1, w.2.2.2.1, w.2.2.2.2 rfl⟩

/-! ## The buffered path: forwarding -/

theorem forwardToSnapshotProxy_post (env : Env) (r : Request) (body : GoString)
    (hpost : r.Method = MethodPost) :
    forwardToSnapshotProxy env r body =
      match env.ParseURL (str "http://localhost:8899") with
      | .error err => (.error (str "failed to create forward request: " ++ err), [])
      | .ok _ =>
        (env.Do ⟨MethodPost, str "http://localhost:8899", r.Header, some body⟩,
          [.clientDo ⟨MethodPost, str "http://localhost:8899", r.Header, some body⟩]) := by
  unfold forwardToSnapshotProxy NewRequest
  simp only [hpost, if_true]
  cases hp : env.ParseURL (str "http://localhost:8899") <;> rfl

theorem forwardToSnapshotProxy_get (env : Env) (r : Request) (body : GoString)
    (hget : r.Method = MethodGet) :
    forwardToSnapshotProxy env r body =
      match env.ParseURL (str "http://localhost:8899" ++ str "?" ++ r.URL.RawQuery) with
      | .error err => (.error (str "failed to create forward request: " ++ err), [])
      | .ok _ =>
        (env.Do ⟨MethodGet, str "http://localhost:8899" ++ str "?" ++ r.URL.RawQuery,
            r.Header, none⟩,
          [.clientDo ⟨MethodGet, str "http://localhost:8899" ++ str "?" ++ r.URL.RawQuery,
            r.Header, none⟩]) := by
  unfold forwardToSnapshotProxy NewRequest
  have hne : ¬ (MethodGet = MethodPost) := by decide
  simp only [hget, hne, if_true, if_false]
  cases hp : env.ParseURL (str "http://localhost:8899" ++ str "?" ++ r.URL.RawQuery) <;> rfl

theorem forwardToSnapshotProxy_other (env : Env) (r : Request) (body : GoString)
    (hpost : r.Method ≠ MethodPost) (hget : r.Method ≠ MethodGet) :
    forwardToSnapshotProxy env r body
      = (.error (str "unsupported HTTP method: " ++ r.Method), []) := by
  unfold forwardToSnapshotProxy
  simp only [hpost, hget, if_false]

/-- The outcome of `logRequestAndForward` on a path that is not a download path, when
the body was read and the policy did not reject the request. -/
theorem logRequestAndForward_forwarded (env : Env) (r : Request) (config : Config)
    (h : ¬ (r.URL.Path = str "/genesis.tar.bz2" ∨ HasPrefix r.URL.Path (str "/snapshot-") = true
      ∨ HasPrefix r.URL.Path (str "/incremental-snapshot") = true))
    (hread : r.Body.err = none)
    (hpol : ∀ e, env.Unmarshal r.Body.data = some e →
      (isMethodAllowed e.Method config).1 = true) :
    (logRequestAndForward env r config).response =
        (match (forwardToSnapshotProxy env r r.Body.data).1 with
        | .error err =>
          .Error (str "Failed to forward request: " ++ err) StatusInternalServerError
        | .ok resp =>
          match resp.Body.err with
          | some _ => .Error (str "Failed to read proxy response") StatusInternalServerError
          | none =>
            .Written ((Header.mk []).Set (str "Content-Type") (str "application/json"))
              resp.StatusCode resp.Body.data)
      ∧ calls (logRequestAndForward env r config).trace
        = calls (forwardToSnapshotProxy env r r.Body.data).2 := by
  unfold logRequestAndForward
  rw [if_neg h]
  cases hu : env.Unmarshal r.Body.data with
  | none =>
    simp only [ReadAll, hread, hu]
    cases hf : (forwardToSnapshotProxy env r r.Body.data).1 with
    | error err => simp [hf, calls, calls_append]
    | ok resp =>
      cases hb : resp.Body.err <;> simp [hf, hb, calls, calls_append]
  | some e =>
    have ha := hpol e hu
    have hs := isMethodAllowed_true_silent _ _ ha
    simp only [ReadAll, hread, hu, ha, hs]
    cases hf : (forwardToSnapshotProxy env r r.Body.data).1 with
    | error err => simp [hf, calls, calls_append]
    | ok resp =>
      cases hb : resp.Body.err <;> simp [hf, hb, calls, calls_append]

/-- C8: a POST on a path that is not a download path, whose body decodes to an envelope
with a method that `isMethodAllowed` accepts, is sent to the upstream with a body
identical to the inbound body; when the upstream answers without transport error, the
client receives the upstream's status (whatever it is), the header
`Content-Type: application/json`, and exactly the upstream's body. -/
theorem allowed_post_is_relayed (env : Env) (r : Request) (config : Config)
    (e : JSONRPCRequest) (m : GoString) (resp : UpstreamResponse)
    (h : ¬ (r.URL.Path = str "/genesis.tar.bz2" ∨ HasPrefix r.URL.Path (str "/snapshot-") = true
      ∨ HasPrefix r.URL.Path (str "/incremental-snapshot") = true))
    (hpost : r.Method = MethodPost) (hread : r.Body.err = none)
    (hu : env.Unmarshal r.Body.data = some e) (hname : e.Method = m)
    (hm : (isMethodAllowed m config).1 = true)
    (hurl : env.ParseURL (str "http://localhost:8899") = .ok ())
    (hdo : env.Do ⟨MethodPost, str "http://localhost:8899", r.Header, some r.Body.data⟩
      = .ok resp)
    (hbody : resp.Body.err = none) :
    calls (logRequestAndForward env r config).trace
        = [⟨MethodPost, str "http://localhost:8899", r.Header, some r.Body.data⟩]
      ∧ (logRequestAndForward env r config).response.status = resp.StatusCode
      ∧ (logRequestAndForward env r config).response.header
          = (Header.mk []).Set (str "Content-Type") (str "application/json")
      ∧ (logRequestAndForward env r config).response.header.Get (str "Content-Type")
          = str "application/json"
      ∧ (logRequestAndForward env r config).response.body = resp.Body.data := by
  subst hname
  have hpol : ∀ e2, env.Unmarshal r.Body.data = some e2 →
      (isMethodAllowed e2.Method config).1 = true := by
    intro e2 h2
    rw [hu] at h2
    injection h2 with h3
    subst h3
    exact hm
  obtain ⟨hresp, hcalls⟩ := logRequestAndForward_forwarded env r config h hread hpol
  rw [forwardToSnapshotProxy_post env r _ hpost, hurl] at hresp hcalls
  simp only [hdo, hbody] at hresp
  rw [hresp, hcalls]
  refine ⟨rfl, rfl, rfl, ?_, rfl⟩
  simp only [Response.header]
  rw [Header.Get_Set_same]

theorem allowed_post_is_relayed_witness :
    calls (logRequestAndForward
        (scenarioEnv (.ok ⟨503, ⟨[]⟩, ⟨str "unhealthy", none⟩⟩))
        (scenarioRequest MethodPost (str "/") bodyGetHealth) scenarioConfig).trace
        = [⟨MethodPost, str "http://localhost:8899", ⟨[]⟩, some bodyGetHealth⟩]
      ∧ (logRequestAndForward
        (scenarioEnv (.ok ⟨503, ⟨[]⟩, ⟨str "unhealthy", none⟩⟩))
        (scenarioRequest MethodPost (str "/") bodyGetHealth) scenarioConfig).response.status
        = 503
      ∧ (logRequestAndForward
        (scenarioEnv (.ok ⟨503, ⟨[]⟩, ⟨str "unhealthy", none⟩⟩))
        (scenarioRequest MethodPost (str "/") bodyGetHealth) scenarioConfig).response.body
        = str "unhealthy" :=
  have w := allowed_post_is_relayed
    (scenarioEnv (.ok ⟨503, ⟨[]⟩, ⟨str "unhealthy", none⟩⟩))
    (scenarioRequest MethodPost (str "/") bodyGetHealth) scenarioConfig
    ⟨str "2.0", .number (str "1"), str "getHealth", .array []⟩ (str "getHealth")
    ⟨503, ⟨[]⟩, ⟨str "unhealthy", none⟩⟩
    (by decide) rfl rfl rfl rfl (by decide) rfl rfl rfl
  ⟨w.1, w.2.1, w.2.2.2.2⟩

/-- C9: for an inbound method that is neither GET nor POST, `forwardToSnapshotProxy`
returns the unsupported-method error without calling the upstream, and on a path that
is not a download path `logRequestAndForward`, unless the policy rejected the request,
answers with status 500 and no upstream call.  For GET the outbound request carries the
raw query string and no body; for POST it carries the raw body. -/
theorem unsupported_method_and_outbound_shape (env : Env) (r : Request) :
    (r.Method ≠ MethodGet → r.Method ≠ MethodPost →
        (∀ body : GoString, forwardToSnapshotProxy env r body
          = (.error (str "unsupported HTTP method: " ++ r.Method), []))
        ∧ (∀ config : Config,
          ¬ (r.URL.Path = str "/genesis.tar.bz2" ∨ HasPrefix r.URL.Path (str "/snapshot-") = true
            ∨ HasPrefix r.URL.Path (str "/incremental-snapshot") = true) →
          (logRequestAndForward env r config).response
            ≠ .Error (str "Method not allowed") StatusForbidden →
          (logRequestAndForward env r config).response.status = 500
            ∧ calls (logRequestAndForward env r config).trace = []))
      ∧ (r.Method = MethodGet → ∀ body : GoString,
        (∀ req ∈ calls (forwardToSnapshotProxy env r body).2,
          req = ⟨MethodGet, str "http://localhost:8899" ++ str "?" ++ r.URL.RawQuery,
            r.Header, none⟩)
        ∧ (env.ParseURL (str "http://localhost:8899" ++ str "?" ++ r.URL.RawQuery) = .ok () →
          calls (forwardToSnapshotProxy env r body).2
            = [⟨MethodGet, str "http://localhost:8899" ++ str "?" ++ r.URL.RawQuery,
              r.Header, none⟩]))
      ∧ (r.Method = MethodPost → ∀ body : GoString,
        (∀ req ∈ calls (forwardToSnapshotProxy env r body).2,
          req = ⟨MethodPost, str "http://localhost:8899", r.Header, some body⟩)
        ∧ (env.ParseURL (str "http://localhost:8899") = .ok () →
          calls (forwardToSnapshotProxy env r body).2
            = [⟨MethodPost, str "http://localhost:8899", r.Header, some body⟩])) := by
  refine ⟨?_, ?_, ?_⟩
  · intro hget hpost
    refine ⟨fun body => forwardToSnapshotProxy_other env r body hpost hget, ?_⟩
    intro config h hnot
    cases hb : r.Body.err with
    | some err =>
      have hout : logRequestAndForward env r config =
          ⟨.Error (str "Unable to read request body") StatusInternalServerError, []⟩ := by
        unfold logRequestAndForward
        rw [if_neg h]
        simp [ReadAll, hb]
      rw [hout]
      exact ⟨rfl, rfl⟩
    | none =>
      have hpol : ∀ e, env.Unmarshal r.Body.data = some e →
          (isMethodAllowed e.Method config).1 = true := by
        intro e hu
        cases hv : (isMethodAllowed e.Method config).1 with
        | true => rfl
        | false =>
          exfalso
          apply hnot
          rw [logRequestAndForward_rejected env r config e h hb hu hv]
      obtain ⟨hresp, hcalls⟩ := logRequestAndForward_forwarded env r config h hb hpol
      rw [forwardToSnapshotProxy_other env r _ hpost hget] at hresp hcalls
      rw [hresp, hcalls]
      exact ⟨rfl, rfl⟩
  · intro hget body
    rw [forwardToSnapshotProxy_get env r body hget]
    refine ⟨?_, ?_⟩
    · intro req hreq
      cases hp : env.ParseURL (str "http://localhost:8899" ++ str "?" ++ r.URL.RawQuery) with
      | error err =>
        rw [hp] at hreq
        simp [calls] at hreq
      | ok u =>
        rw [hp] at hreq
        simpa [calls] using hreq
    · intro hp
      rw [hp]
      rfl
  · intro hpost body
    rw [forwardToSnapshotProxy_post env r body hpost]
    refine ⟨?_, ?_⟩
    · intro req hreq
      cases hp : env.ParseURL (str "http://localhost:8899") with
      | error err =>
        rw [hp] at hreq
        simp [calls] at hreq
      | ok u =>
        rw [hp] at hreq
        simpa [calls] using hreq
    · intro hp
      rw [hp]
      rfl

theorem unsupported_method_and_outbound_shape_witness :
    (logRequestAndForward (scenarioEnv (.ok ⟨200, ⟨[]⟩, ⟨str "ok", none⟩⟩))
        (scenarioRequest (str "PUT") (str "/") bodyGetHealth) scenarioConfig).response.status
        = 500
      ∧ calls (logRequestAndForward (scenarioEnv (.ok ⟨200, ⟨[]⟩, ⟨str "ok", none⟩⟩))
        (scenarioRequest (str "PUT") (str "/") bodyGetHealth) scenarioConfig).trace = []
      ∧ calls (forwardToSnapshotProxy (scenarioEnv (.ok ⟨200, ⟨[]⟩, ⟨str "ok", none⟩⟩))
        ⟨MethodGet, ⟨str "/", str "a=1"⟩, ⟨[]⟩, ⟨[], none⟩, str "127.0.0.1:4000"⟩ []).2
        = [⟨MethodGet, str "http://localhost:8899" ++ str "?" ++ str "a=1", ⟨[]⟩, none⟩]
      ∧ calls (forwardToSnapshotProxy (scenarioEnv (.ok ⟨200, ⟨[]⟩, ⟨str "ok", none⟩⟩))
        (scenarioRequest MethodPost (str "/") bodyGetHealth) bodyGetHealth).2
        = [⟨MethodPost, str "http://localhost:8899", ⟨[]⟩, some bodyGetHealth⟩] :=
  ⟨((unsupported_method_and_outbound_shape (scenarioEnv (.ok ⟨200, ⟨[]⟩, ⟨str "ok", none⟩⟩))
      (scenarioRequest (str "PUT") (str "/") bodyGetHealth)).1 (by decide) (by decide)).2
      scenarioConfig (by decide) (by decide) |>.1,
    ((unsupported_method_and_outbound_shape (scenarioEnv (.ok ⟨200, ⟨[]⟩, ⟨str "ok", none⟩⟩))
      (scenarioRequest (str "PUT") (str "/") bodyGetHealth)).1 (by decide) (by decide)).2
      scenarioConfig (by decide) (by decide) |>.2,
    ((unsupported_method_and_outbound_shape (scenarioEnv (.ok ⟨200, ⟨[]⟩, ⟨str "ok", none⟩⟩))
      ⟨MethodGet, ⟨str "/", str "a=1"⟩, ⟨[]⟩, ⟨[], none⟩, str "127.0.0.1:4000"⟩).2.1 rfl []).2
      rfl,
    ((unsupported_method_and_outbound_shape (scenarioEnv (.ok ⟨200, ⟨[]⟩, ⟨str "ok", none⟩⟩))
      (scenarioRequest MethodPost (str "/") bodyGetHealth)).2.2 rfl bodyGetHealth).2 rfl⟩

/-- C10, at concrete inputs: the body `not json` does not decode, and the path `/` is not
a download path.  For a PUT nothing is forwarded (the client receives status 500); for a
GET the outbound request has no body although the inbound body is not empty.  So an
undecodable body is not always forwarded with a byte-identical outbound body. -/
theorem undecodable_body_not_always_forwarded :
    scenarioUnmarshal (str "not json") = none
      ∧ calls (logRequestAndForward (scenarioEnv (.ok ⟨200, ⟨[]⟩, ⟨str "ok", none⟩⟩))
        (scenarioRequest (str "PUT") (str "/") (str "not json")) scenarioConfig).trace = []
      ∧ (logRequestAndForward (scenarioEnv (.ok ⟨200, ⟨[]⟩, ⟨str "ok", none⟩⟩))
        (scenarioRequest (str "PUT") (str "/") (str "not json")) scenarioConfig).response.status
        = 500
      ∧ calls (logRequestAndForward (scenarioEnv (.ok ⟨200, ⟨[]⟩, ⟨str "ok", none⟩⟩))
        (scenarioRequest MethodGet (str "/") (str "not json")) scenarioConfig).trace
        = [⟨MethodGet, str "http://localhost:8899?", ⟨[]⟩, none⟩]
      ∧ ¬ (∃ req ∈ calls (logRequestAndForward (scenarioEnv (.ok ⟨200, ⟨[]⟩, ⟨str "ok", none⟩⟩))
          (scenarioRequest MethodGet (str "/") (str "not json")) scenarioConfig).trace,
        req.Body = some (str "not json")) := by
  refine ⟨rfl, by decide, by decide, by decide, by decide⟩

/-- C10, amended: on a path that is not a download path, when the body does not decode
into the envelope, no policy check is performed: the outcome is the same for any two
configs and is never the 403 policy rejection.  When the inbound method is POST the
request is forwarded with an outbound body identical to the inbound body; when it is
GET every outbound request has no body; for any other method nothing is forwarded. -/
theorem undecodable_body_bypasses_policy (env : Env) (r : Request)
    (h : ¬ (r.URL.Path = str "/genesis.tar.bz2" ∨ HasPrefix r.URL.Path (str "/snapshot-") = true
      ∨ HasPrefix r.URL.Path (str "/incremental-snapshot") = true))
    (hu : env.Unmarshal r.Body.data = none) :
    (∀ config config2 : Config,
        logRequestAndForward env r config = logRequestAndForward env r config2)
      ∧ (∀ config : Config, (logRequestAndForward env r config).response
          ≠ .Error (str "Method not allowed") StatusForbidden)
      ∧ (r.Method = MethodPost → r.Body.err = none →
          env.ParseURL (str "http://localhost:8899") = .ok () →
          ∀ config : Config, calls (logRequestAndForward env r config).trace
            = [⟨MethodPost, str "http://localhost:8899", r.Header, some r.Body.data⟩])
      ∧ (r.Method = MethodGet →
          ∀ config : Config, ∀ req ∈ calls (logRequestAndForward env r config).trace,
            req.Body = none)
      ∧ (r.Method ≠ MethodGet → r.Method ≠ MethodPost →
          ∀ config : Config, calls (logRequestAndForward env r config).trace = []) := by
  have hpol : ∀ config : Config, ∀ e, env.Unmarshal r.Body.data = some e →
      (isMethodAllowed e.Method config).1 = true := by
    intro config e he
    rw [hu] at he
    exact absurd he (by simp)
  have hfail : ∀ config : Config, ∀ err, r.Body.err = some err →
      logRequestAndForward env r config =
        ⟨.Error (str "Unable to read request body") StatusInternalServerError, []⟩ := by
    intro config err hb
    unfold logRequestAndForward
    rw [if_neg h]
    simp [ReadAll, hb]
  refine ⟨?_, ?_, ?_, ?_, ?_⟩
  · intro config config2
    cases hb : r.Body.err with
    | some err => rw [hfail config err hb, hfail config2 err hb]
    | none =>
      unfold logRequestAndForward
      simp only [ReadAll, hb, hu, if_neg h]
  · intro config
    cases hb : r.Body.err with
    | some err =>
      rw [hfail config err hb]
      simp [StatusInternalServerError, StatusForbidden]
    | none =>
      rw [(logRequestAndForward_forwarded env r config h hb (hpol config)).1]
      cases hf : (forwardToSnapshotProxy env r r.Body.data).1 with
      | error err => simp [StatusInternalServerError, StatusForbidden]
      | ok resp =>
        cases hr : resp.Body.err <;> simp [hr, StatusInternalServerError, StatusForbidden]
  · intro hpost hb hurl config
    rw [(logRequestAndForward_forwarded env r config h hb (hpol config)).2,
      forwardToSnapshotProxy_post env r _ hpost, hurl]
    rfl
  · intro hget config req hreq
    cases hb : r.Body.err with
    | some err =>
      rw [hfail config err hb] at hreq
      simp [calls] at hreq
    | none =>
      rw [(logRequestAndForward_forwarded env r config h hb (hpol config)).2,
        forwardToSnapshotProxy_get env r _ hget] at hreq
      cases hp : env.ParseURL (str "http://localhost:8899" ++ str "?" ++ r.URL.RawQuery) with
      | error err =>
        rw [hp] at hreq
        simp [calls] at hreq
      | ok u =>
        rw [hp] at hreq
        simp only [calls, List.mem_singleton] at hreq
        rw [hreq]
  · intro hget hpost config
    cases hb : r.Body.err with
    | some err =>
      rw [hfail config err hb]
      rfl
    | none =>
      rw [(logRequestAndForward_forwarded env r config h hb (hpol config)).2,
        forwardToSnapshotProxy_other env r _ hpost hget]
      rfl

theorem undecodable_body_bypasses_policy_witness :
    logRequestAndForward (scenarioEnv (.ok ⟨200, ⟨[]⟩, ⟨str "ok", none⟩⟩))
        (scenarioRequest MethodPost (str "/") (str "not json")) scenarioConfig
        = logRequestAndForward (scenarioEnv (.ok ⟨200, ⟨[]⟩, ⟨str "ok", none⟩⟩))
          (scenarioRequest MethodPost (str "/") (str "not json")) strictConfig
      ∧ calls (logRequestAndForward (scenarioEnv (.ok ⟨200, ⟨[]⟩, ⟨str "ok", none⟩⟩))
        (scenarioRequest MethodPost (str "/") (str "not json")) strictConfig).trace
        = [⟨MethodPost, str "http://localhost:8899", ⟨[]⟩, some (str "not json")⟩]
      ∧ (∀ req ∈ calls (logRequestAndForward (scenarioEnv (.ok ⟨200, ⟨[]⟩, ⟨str "ok", none⟩⟩))
          (scenarioRequest MethodGet (str "/") (str "not json")) strictConfig).trace,
        req.Body = none)
      ∧ calls (logRequestAndForward (scenarioEnv (.ok ⟨200, ⟨[]⟩, ⟨str "ok", none⟩⟩))
        (scenarioRequest (str "PUT") (str "/") (str "not json")) strictConfig).trace = [] :=
  ⟨(undecodable_body_bypasses_policy (scenarioEnv (.ok ⟨200, ⟨[]⟩, ⟨str "ok", none⟩⟩))
      (scenarioRequest MethodPost (str "/") (str "not json")) (by decide) rfl).1 _ _,
    (undecodable_body_bypasses_policy (scenarioEnv (.ok ⟨200, ⟨[]⟩, ⟨str "ok", none⟩⟩))
      (scenarioRequest MethodPost (str "/") (str "not json")) (by decide) rfl).2.2.1
      rfl rfl rfl strictConfig,
    (undecodable_body_bypasses_policy (scenarioEnv (.ok ⟨200, ⟨[]⟩, ⟨str "ok", none⟩⟩))
      (scenarioRequest MethodGet (str "/") (str "not json")) (by decide) rfl).2.2.2.1
      rfl strictConfig,
    (undecodable_body_bypasses_policy (scenarioEnv (.ok ⟨200, ⟨[]⟩, ⟨str "ok", none⟩⟩))
      (scenarioRequest (str "PUT") (str "/") (str "not json")) (by decide) rfl).2.2.2.2
      (by decide) (by decide) strictConfig⟩


end SnapshotProxy
